import Mathlib

/-!
Verification of the usysconf trigger-dispatch core against its
specification.  The only source file available is the systemd tmpfiles
handler (`src/handlers/systemd/tmpfiles.c`); it is embedded directly.
The dispatcher, the status flag constants, the path resolver and the
command runner live outside the provided sources, so they are modelled
from the specification where a claim needs them.
-/

namespace Usysconf

/-- Handler status bitflags (`UscHandlerStatus`).  The C header defining the
flag constants is not among the sources; the four observable flags named by
the spec are represented as four booleans, OR-combinable fieldwise. -/
structure UscHandlerStatus where
  success : Bool
  skip : Bool
  fail : Bool
  brk : Bool
deriving DecidableEq, Repr

/-- Bitwise OR on status flags, mirroring `|` on the C bitflags. -/
def statusOr (a b : UscHandlerStatus) : UscHandlerStatus :=
  ⟨a.success || b.success, a.skip || b.skip, a.fail || b.fail, a.brk || b.brk⟩

instance : OrOp UscHandlerStatus := ⟨statusOr⟩

def USC_HANDLER_SUCCESS : UscHandlerStatus := ⟨true, false, false, false⟩
def USC_HANDLER_SKIP : UscHandlerStatus := ⟨false, true, false, false⟩
def USC_HANDLER_FAIL : UscHandlerStatus := ⟨false, false, true, false⟩
def USC_HANDLER_BREAK : UscHandlerStatus := ⟨false, false, false, true⟩

/-- Modelled from the spec: the `UscContext` run context, a read-only
snapshot of run-wide options (root path override, dry-run flag); its
definition is not among the provided sources. -/
structure UscContext where
  rootOverride : String
  dryRun : Bool
deriving DecidableEq, Repr

/-- Outcome of launching an external command: either the process ran and
exited with a code, or it could not be started at all. -/
inductive CmdOutcome where
  | exited : Int → CmdOutcome
  | launchError : CmdOutcome
deriving DecidableEq, Repr

/-- Modelled from the spec: the integer `usc_exec_command` hands back to the
handler (`util.c` is not among the sources).  The Command Runner returns the
external process exit code, and a failure to launch is reported as a nonzero
value, here `-1`. -/
def cmdRet : CmdOutcome → Int
  | CmdOutcome.exited code => code
  | CmdOutcome.launchError => -1

/-- Modelled from the spec: the external collaborators seen by a handler and
by the dispatcher — the filesystem classification used by
`usc_file_is_dir`, the Command Runner behind `usc_exec_command`, and the
Path Resolver expanding a handler interest set into matched paths. -/
structure Env where
  isDir : String → Bool
  runCmd : List String → CmdOutcome
  resolve : List String → List String

/-- Modelled from the spec: the `SYSTEMD_TMPFILES_DIR` constant from
`config.h` (not among the sources); the spec names the directory
`/usr/lib/tmpfiles.d`. -/
def SYSTEMD_TMPFILES_DIR : String := "/usr/lib/tmpfiles.d"

/-- The `sysuser_paths` array from `tmpfiles.c`: the handler interest set. -/
def sysuser_paths : List String := [SYSTEMD_TMPFILES_DIR]

/-- The fixed argument vector built in `usc_handler_tmpfiles_exec`
(the trailing NULL terminator of the C array is implicit in the list). -/
def tmpfilesCommand : List String :=
  ["/usr/bin/systemd-tmpfiles", "--root=/", "--create"]

/-- The `usc_handler_tmpfiles_exec` function from `tmpfiles.c`.  Besides the returned
status it records the argument vectors handed to the Command Runner and the
stderr lines printed, so that invocation and logging behaviour are
observable.  Control flow follows the source: a non-directory path returns
`USC_HANDLER_SKIP` before any command is launched; otherwise the fixed
command runs and a nonzero return yields `FAIL|BREAK`, zero yields
`SUCCESS|BREAK`. -/
def usc_handler_tmpfiles_exec (env : Env) (_ctx : UscContext) (path : String) :
    UscHandlerStatus × List (List String) × List String :=
  if !env.isDir path then
    (USC_HANDLER_SKIP, [], [])
  else
    let log0 := "Updating tmpfiles for " ++ path
    let ret := cmdRet (env.runCmd tmpfilesCommand)
    if ret != 0 then
      (USC_HANDLER_FAIL ||| USC_HANDLER_BREAK, [tmpfilesCommand], [log0, "Ohnoes"])
    else
      (USC_HANDLER_SUCCESS ||| USC_HANDLER_BREAK, [tmpfilesCommand], [log0])

/-- The registry entry fields of the `UscHandler` struct other than the
`exec` function pointer, which is represented by a numeric identifier. -/
structure UscHandlerData where
  name : String
  paths : List String
  n_paths : Nat
  execId : Nat
deriving DecidableEq, Repr

/-- The `usc_handler_tmpfiles` constant from `tmpfiles.c`: the static registry entry. -/
def usc_handler_tmpfiles : UscHandlerData :=
  { name := "tmpfiles"
    paths := sysuser_paths
    n_paths := sysuser_paths.length
    execId := 0 }

/-- State-passing embedding of `usc_handler_tmpfiles_exec`: the mutable
memory reachable from the call — the pointed-to context and the registry
entry — is threaded through each return point of the source, which contains
no store to either. -/
def usc_handler_tmpfiles_exec_full (env : Env) (ctx : UscContext)
    (entry : UscHandlerData) (path : String) :
    UscHandlerStatus × UscContext × UscHandlerData :=
  if !env.isDir path then
    (USC_HANDLER_SKIP, ctx, entry)
  else
    let ret := cmdRet (env.runCmd tmpfilesCommand)
    if ret != 0 then
      (USC_HANDLER_FAIL ||| USC_HANDLER_BREAK, ctx, entry)
    else
      (USC_HANDLER_SUCCESS ||| USC_HANDLER_BREAK, ctx, entry)

/-- Predicate: `exactlyOne a b c` holds when precisely one of the three
booleans is `true`. -/
def exactlyOne (a b c : Bool) : Bool :=
  (a && !b && !c) || (!a && b && !c) || (!a && !b && c)

/-- Modelled from the spec: a registered handler as the dispatcher sees
it — name, interest set, and the bound execution function
`(RunContext, matched_path) → HandlerStatus`.  The dispatcher sources are
not among the provided files. -/
structure UscHandler where
  name : String
  paths : List String
  exec : UscContext → String → UscHandlerStatus

/-- One record per handler invocation performed by the dispatcher:
which handler ran, on which matched path, and the status it returned. -/
structure InvocationRecord where
  handler : String
  path : String
  status : UscHandlerStatus
deriving DecidableEq, Repr

/-- Modelled from the spec: the dispatcher inner loop (section 4.3, step 2).
Each matched path is handed to `exec` in resolver order; when the returned
status has `BREAK` set the remaining matched paths for this handler are not
visited. -/
def dispatchPaths (ctx : UscContext) (h : UscHandler) :
    List String → List InvocationRecord
  | [] => []
  | p :: rest =>
    let st := h.exec ctx p
    let r : InvocationRecord := ⟨h.name, p, st⟩
    if st.brk then [r] else r :: dispatchPaths ctx h rest

/-- Modelled from the spec: the dispatcher outer loop (section 4.3).  Each
handler in registry order has its interest set resolved and its matches
dispatched; a handler with no matches is simply passed over, and no status
returned by one handler influences the dispatch of the next. -/
def runInvocations (env : Env) (ctx : UscContext) :
    List UscHandler → List InvocationRecord
  | [] => []
  | h :: rest =>
    dispatchPaths ctx h (env.resolve h.paths) ++ runInvocations env ctx rest

/-- Modelled from the spec: the `RunResult` aggregate — successes counted,
failure records appended, and the "any failure" flag that decides the
process exit code. -/
structure RunResult where
  executed : Nat
  failures : List (String × String)
  anyFailure : Bool
deriving DecidableEq, Repr

/-- Modelled from the spec: folding the invocation records of one dispatch
run into the finalized `RunResult` (section 4.3, steps 2b, 2d and 3). -/
def runResult (env : Env) (registry : List UscHandler) (ctx : UscContext) :
    RunResult :=
  let invs := runInvocations env ctx registry
  { executed := (invs.filter (fun r => r.status.success)).length
    failures := (invs.filter (fun r => r.status.fail)).map
      (fun r => (r.handler, r.path))
    anyFailure := invs.any (fun r => r.status.fail) }

/-- Modelled from the spec: process exit code — 0 when the run recorded no
failure, nonzero otherwise. -/
def exitCode (res : RunResult) : Nat :=
  if res.anyFailure then 1 else 0

/-- The tmpfiles handler as a registry entry for the dispatcher, its `exec`
bound to the embedded `usc_handler_tmpfiles_exec` under a fixed
environment. -/
def tmpfilesHandler (env : Env) : UscHandler :=
  { name := "tmpfiles"
    paths := sysuser_paths
    exec := fun ctx p => (usc_handler_tmpfiles_exec env ctx p).1 }

/-- Concrete environment: the interest directory exists and the external
command exits 0. -/
def envDirZero : Env :=
  { isDir := fun _ => true
    runCmd := fun _ => CmdOutcome.exited 0
    resolve := fun _ => [SYSTEMD_TMPFILES_DIR] }

/-- Concrete environment: the interest directory exists but the external
command exits 1. -/
def envDirFail : Env :=
  { isDir := fun _ => true
    runCmd := fun _ => CmdOutcome.exited 1
    resolve := fun _ => [SYSTEMD_TMPFILES_DIR] }

/-- Concrete environment: the matched path is not a directory and any
launch attempt would fail. -/
def envNoDir : Env :=
  { isDir := fun _ => false
    runCmd := fun _ => CmdOutcome.launchError
    resolve := fun _ => [] }

/-- Concrete environment: two matched paths, command exits 0. -/
def envTwoMatches : Env :=
  { isDir := fun _ => true
    runCmd := fun _ => CmdOutcome.exited 0
    resolve := fun _ => ["/usr/lib/tmpfiles.d", "/usr/lib/tmpfiles.d/a.conf"] }

/-- A concrete run context. -/
def ctx0 : UscContext := ⟨"/", false⟩

/-- A second, distinct run context. -/
def ctx1 : UscContext := ⟨"/sysroot", true⟩

/-- A concrete handler whose `exec` always returns `SUCCESS|BREAK`. -/
def handlerAlwaysBreak : UscHandler :=
  { name := "a"
    paths := ["/x"]
    exec := fun _ _ => USC_HANDLER_SUCCESS ||| USC_HANDLER_BREAK }

/-- The Command Runner outcome maps to a zero return value exactly when the
process ran and exited 0: a launch error is reported as nonzero. -/
theorem cmdRet_eq_zero_iff (o : CmdOutcome) :
    cmdRet o = 0 ↔ o = CmdOutcome.exited 0 := by
  cases o <;> simp [cmdRet]

/-- C1: for every environment, context and path, the status returned by
`usc_handler_tmpfiles_exec` has exactly one of `SUCCESS`, `SKIP`, `FAIL`
set; `BREAK` may accompany them but the three never co-occur. -/
theorem tmpfiles_exec_exactly_one_of_three (env : Env) (ctx : UscContext)
    (path : String) :
    exactlyOne (usc_handler_tmpfiles_exec env ctx path).1.success
      (usc_handler_tmpfiles_exec env ctx path).1.skip
      (usc_handler_tmpfiles_exec env ctx path).1.fail = true := by
  unfold usc_handler_tmpfiles_exec
  cases hd : env.isDir path
  · simp only [hd, Bool.not_false, if_pos]
    decide
  · simp only [hd, Bool.not_true, Bool.false_eq_true, if_false]
    by_cases hr : cmdRet (env.runCmd tmpfilesCommand) != 0
    · simp only [hr, if_pos]
      decide
    · simp only [hr, Bool.false_eq_true, if_false]
      decide

/-- C2: when the matched path is a directory and the external command does
not exit 0 (nonzero exit or launch error), the handler returns a status
with `FAIL` set and `SKIP` clear. -/
theorem tmpfiles_exec_fail_on_bad_command (env : Env) (ctx : UscContext)
    (path : String) (hdir : env.isDir path = true)
    (hcmd : env.runCmd tmpfilesCommand ≠ CmdOutcome.exited 0) :
    (usc_handler_tmpfiles_exec env ctx path).1.fail = true ∧
    (usc_handler_tmpfiles_exec env ctx path).1.skip = false := by
  have hret : cmdRet (env.runCmd tmpfilesCommand) ≠ 0 := by
    intro h0
    exact hcmd ((cmdRet_eq_zero_iff _).mp h0)
  unfold usc_handler_tmpfiles_exec
  simp only [hdir, Bool.not_true, Bool.false_eq_true, if_false]
  simp only [bne_iff_ne, ne_eq, hret, not_false_eq_true, if_true]
  decide

/-- Witness for C2: at a concrete environment where the command exits 1,
the returned status has `FAIL` set and `SKIP` clear. -/
theorem tmpfiles_exec_fail_on_bad_command_witness :
    (usc_handler_tmpfiles_exec envDirFail ctx0 SYSTEMD_TMPFILES_DIR).1.fail = true ∧
    (usc_handler_tmpfiles_exec envDirFail ctx0 SYSTEMD_TMPFILES_DIR).1.skip = false :=
  tmpfiles_exec_fail_on_bad_command envDirFail ctx0 SYSTEMD_TMPFILES_DIR rfl
    (by decide)

/-- C3: when the matched path is a directory and the external command exits
0 the handler returns `SUCCESS|BREAK`; when the matched path is not a
directory it returns `SKIP` and hands no command at all to the Command
Runner. -/
theorem tmpfiles_exec_dir_vs_nondir (env : Env) (ctx : UscContext)
    (path : String) :
    (env.isDir path = true → env.runCmd tmpfilesCommand = CmdOutcome.exited 0 →
      (usc_handler_tmpfiles_exec env ctx path).1 =
        (USC_HANDLER_SUCCESS ||| USC_HANDLER_BREAK)) ∧
    (env.isDir path = false →
      (usc_handler_tmpfiles_exec env ctx path).1 = USC_HANDLER_SKIP ∧
      (usc_handler_tmpfiles_exec env ctx path).2.1 = []) := by
  constructor
  · intro hdir hcmd
    unfold usc_handler_tmpfiles_exec
    simp [hdir, hcmd, cmdRet]
  · intro hdir
    unfold usc_handler_tmpfiles_exec
    simp [hdir]

/-- Witness for C3: both branches at concrete inputs — a directory with a
clean command exit yields `SUCCESS|BREAK`; a non-directory yields `SKIP`
with an empty command trace. -/
theorem tmpfiles_exec_dir_vs_nondir_witness :
    (usc_handler_tmpfiles_exec envDirZero ctx0 SYSTEMD_TMPFILES_DIR).1 =
      (USC_HANDLER_SUCCESS ||| USC_HANDLER_BREAK) ∧
    ((usc_handler_tmpfiles_exec envNoDir ctx0 "/usr/lib/tmpfiles.d/f.conf").1 =
        USC_HANDLER_SKIP ∧
      (usc_handler_tmpfiles_exec envNoDir ctx0 "/usr/lib/tmpfiles.d/f.conf").2.1 = []) :=
  ⟨(tmpfiles_exec_dir_vs_nondir envDirZero ctx0 SYSTEMD_TMPFILES_DIR).1 rfl rfl,
   (tmpfiles_exec_dir_vs_nondir envNoDir ctx0 "/usr/lib/tmpfiles.d/f.conf").2 rfl⟩

/-- C4: whenever the returned status has `FAIL` set, `BREAK` is set as
well. -/
theorem tmpfiles_exec_fail_implies_break (env : Env) (ctx : UscContext)
    (path : String)
    (h : (usc_handler_tmpfiles_exec env ctx path).1.fail = true) :
    (usc_handler_tmpfiles_exec env ctx path).1.brk = true := by
  revert h
  unfold usc_handler_tmpfiles_exec
  cases hd : env.isDir path
  · intro h; simpa using h
  · by_cases hr : cmdRet (env.runCmd tmpfilesCommand) != 0
    · simp [hr]
      decide
    · simp only [Bool.not_true, Bool.false_eq_true, if_false, hr]
      intro h
      exact absurd h (by decide)

/-- Witness for C4: at a concrete environment where the command exits 1,
the status has `FAIL` set, and the theorem gives `BREAK` set. -/
theorem tmpfiles_exec_fail_implies_break_witness :
    (usc_handler_tmpfiles_exec envDirFail ctx0 SYSTEMD_TMPFILES_DIR).1.brk = true :=
  tmpfiles_exec_fail_implies_break envDirFail ctx0 SYSTEMD_TMPFILES_DIR (by decide)

/-- Dispatching a concatenation of two registries produces the
concatenation of the invocation records: no status returned inside the
first part can suppress the second part. -/
theorem runInvocations_append (env : Env) (ctx : UscContext)
    (pre post : List UscHandler) :
    runInvocations env ctx (pre ++ post) =
      runInvocations env ctx pre ++ runInvocations env ctx post := by
  induction pre with
  | nil => simp [runInvocations]
  | cons h t ih => simp [runInvocations, ih]

/-- C5: a `FAIL` from a handler does not stop the dispatch loop — the
handlers after it produce exactly the invocations they would produce on
their own — and the finalized run reports no failure iff no invocation
returned a status with `FAIL` set. -/
theorem dispatch_no_early_abort_and_success_iff (env : Env) (ctx : UscContext)
    (pre post : List UscHandler) :
    runInvocations env ctx (pre ++ post) =
      runInvocations env ctx pre ++ runInvocations env ctx post ∧
    ((runResult env (pre ++ post) ctx).anyFailure = false ↔
      ∀ r ∈ runInvocations env ctx (pre ++ post), r.status.fail = false) := by
  refine ⟨runInvocations_append env ctx pre post, ?_⟩
  simp [runResult, List.any_eq_true]

/-- C6: a handler whose `exec` always returns `SUCCESS|BREAK` is invoked
exactly once by the dispatcher, however many paths (at least one) its
interest set resolved to. -/
theorem dispatcher_break_invoked_once (env : Env) (ctx : UscContext)
    (h : UscHandler)
    (hexec : ∀ c p, h.exec c p = USC_HANDLER_SUCCESS ||| USC_HANDLER_BREAK)
    (hM : env.resolve h.paths ≠ []) :
    (dispatchPaths ctx h (env.resolve h.paths)).length = 1 := by
  have hb : (USC_HANDLER_SUCCESS ||| USC_HANDLER_BREAK).brk = true := by decide
  cases hps : env.resolve h.paths with
  | nil => exact absurd hps hM
  | cons p rest => simp [dispatchPaths, hexec, hb]

/-- Witness for C6: a concrete always-`SUCCESS|BREAK` handler with two
resolved matches is invoked exactly once. -/
theorem dispatcher_break_invoked_once_witness :
    envTwoMatches.resolve handlerAlwaysBreak.paths ≠ [] ∧
    (dispatchPaths ctx0 handlerAlwaysBreak
      (envTwoMatches.resolve handlerAlwaysBreak.paths)).length = 1 :=
  ⟨by decide,
   dispatcher_break_invoked_once envTwoMatches ctx0 handlerAlwaysBreak
     (fun _ _ => rfl) (by decide)⟩

/-- C7: when the resolver yields no match for any registered handler, the
run performs no handler invocation, records no failure, and finishes with
exit status 0. -/
theorem run_vacuous_success (env : Env) (registry : List UscHandler)
    (ctx : UscContext)
    (hempty : ∀ h ∈ registry, env.resolve h.paths = []) :
    runInvocations env ctx registry = [] ∧
    (runResult env registry ctx).failures = [] ∧
    exitCode (runResult env registry ctx) = 0 := by
  have hinv : ∀ reg : List UscHandler,
      (∀ h ∈ reg, env.resolve h.paths = []) →
      runInvocations env ctx reg = [] := by
    intro reg
    induction reg with
    | nil => intro _; rfl
    | cons h t ih =>
      intro he
      have h1 : env.resolve h.paths = [] := he h (by simp)
      have h2 : ∀ x ∈ t, env.resolve x.paths = [] :=
        fun x hx => he x (by simp [hx])
      simp [runInvocations, h1, dispatchPaths, ih h2]
  have hmain := hinv registry hempty
  refine ⟨hmain, ?_, ?_⟩ <;> simp [runResult, hmain, exitCode]

/-- Witness for C7: a one-handler registry in an environment that resolves
every interest set to nothing runs vacuously with exit 0. -/
theorem run_vacuous_success_witness :
    runInvocations envNoDir ctx0 [handlerAlwaysBreak] = [] ∧
    (runResult envNoDir [handlerAlwaysBreak] ctx0).failures = [] ∧
    exitCode (runResult envNoDir [handlerAlwaysBreak] ctx0) = 0 :=
  run_vacuous_success envNoDir [handlerAlwaysBreak] ctx0 (fun _ _ => rfl)

/-- C8: every argument vector the tmpfiles handler hands to the Command
Runner is the fixed vector
`["/usr/bin/systemd-tmpfiles", "--root=/", "--create"]`; nothing derived
from the matched path ever appears in it. -/
theorem tmpfiles_exec_fixed_argv (env : Env) (ctx : UscContext)
    (path : String) (c : List String)
    (hc : c ∈ (usc_handler_tmpfiles_exec env ctx path).2.1) :
    c = tmpfilesCommand := by
  revert hc
  unfold usc_handler_tmpfiles_exec
  cases hd : env.isDir path
  · simp
  · by_cases hr : cmdRet (env.runCmd tmpfilesCommand) != 0 <;> simp [hr]

/-- Witness for C8: at a concrete invocation that does launch the command,
the recorded argument vector is the fixed one. -/
theorem tmpfiles_exec_fixed_argv_witness :
    tmpfilesCommand ∈
      (usc_handler_tmpfiles_exec envDirZero ctx0 SYSTEMD_TMPFILES_DIR).2.1 ∧
    tmpfilesCommand = tmpfilesCommand :=
  ⟨by decide,
   tmpfiles_exec_fixed_argv envDirZero ctx0 SYSTEMD_TMPFILES_DIR tmpfilesCommand
     (by decide)⟩

/-- C9: the state-threaded embedding of the handler returns the run context
and the registry entry unchanged at every return point, while computing the
same status as the plain embedding. -/
theorem tmpfiles_exec_frame (env : Env) (ctx : UscContext)
    (entry : UscHandlerData) (path : String) :
    (usc_handler_tmpfiles_exec_full env ctx entry path).2.1 = ctx ∧
    (usc_handler_tmpfiles_exec_full env ctx entry path).2.2 = entry ∧
    (usc_handler_tmpfiles_exec_full env ctx entry path).1 =
      (usc_handler_tmpfiles_exec env ctx path).1 := by
  unfold usc_handler_tmpfiles_exec_full usc_handler_tmpfiles_exec
  cases hd : env.isDir path <;>
    by_cases hr : cmdRet (env.runCmd tmpfilesCommand) != 0 <;> simp [hd, hr]

/-- C10: the returned status depends only on whether the path is a
directory and on the Command Runner return value for the fixed command: two
invocations with different contexts and paths that agree on those two
observations return identical statuses. -/
theorem tmpfiles_exec_status_determined (env1 env2 : Env)
    (ca cb : UscContext) (p1 p2 : String)
    (hdir : env1.isDir p1 = env2.isDir p2)
    (hret : cmdRet (env1.runCmd tmpfilesCommand) =
      cmdRet (env2.runCmd tmpfilesCommand)) :
    (usc_handler_tmpfiles_exec env1 ca p1).1 =
      (usc_handler_tmpfiles_exec env2 cb p2).1 := by
  unfold usc_handler_tmpfiles_exec
  cases hd : env2.isDir p2
  · have h1 : env1.isDir p1 = false := hdir.trans hd
    simp [h1, hd]
  · have h1 : env1.isDir p1 = true := hdir.trans hd
    simp only [h1, hd, Bool.not_true, Bool.false_eq_true, if_false]
    rw [hret]
    by_cases hr : cmdRet (env2.runCmd tmpfilesCommand) != 0 <;> simp [hr]

/-- Witness for C10: two invocations with different environments, contexts
and paths, agreeing on the directory test and the command return value,
yield the same status. -/
theorem tmpfiles_exec_status_determined_witness :
    envDirZero.isDir "/a" = envTwoMatches.isDir "/b" ∧
    cmdRet (envDirZero.runCmd tmpfilesCommand) =
      cmdRet (envTwoMatches.runCmd tmpfilesCommand) ∧
    (usc_handler_tmpfiles_exec envDirZero ctx0 "/a").1 =
      (usc_handler_tmpfiles_exec envTwoMatches ctx1 "/b").1 :=
  ⟨rfl, rfl,
   tmpfiles_exec_status_determined envDirZero envTwoMatches ctx0 ctx1
     "/a" "/b" rfl rfl⟩

end Usysconf
